import Mathlib

/-!
# Verification of `alert-webhook-receiver.py`

A shallow embedding of the Prometheus AlertManager webhook receiver
(`src/alert-webhook-receiver.py`).  The decoded JSON payload is modelled by
the inductive type `Json`; Python operations that can raise are modelled in
the `Except PyErr` monad; every `print(...)` call of the formatter is
modelled as one `String` element of the produced list (the string printed,
without the trailing newline added by `print`).  When an exception is
raised, only the fact of the exception is modelled (the lines printed
before it are dropped): no theorem below depends on partial output of a
failing run.
-/

namespace AlertWebhook

/-- A decoded JSON value, as produced by Python's `json.loads`:
`None`, booleans, numbers, strings, lists and string-keyed dicts.
Numbers are modelled as integers; no claim depends on non-integral
numbers. -/
inductive Json where
  | null : Json
  | bool (b : Bool) : Json
  | num (n : Int) : Json
  | str (s : String) : Json
  | arr (elems : List Json) : Json
  | obj (entries : List (String × Json)) : Json
deriving Repr

mutual

/-- Decidable equality on `Json` (the nested inductive prevents `deriving`). -/
def jsonDecEq : (a b : Json) → Decidable (a = b)
  | .null, .null => isTrue rfl
  | .bool a, .bool b =>
      if h : a = b then isTrue (by rw [h]) else isFalse (by intro hh; cases hh; exact h rfl)
  | .num a, .num b =>
      if h : a = b then isTrue (by rw [h]) else isFalse (by intro hh; cases hh; exact h rfl)
  | .str a, .str b =>
      if h : a = b then isTrue (by rw [h]) else isFalse (by intro hh; cases hh; exact h rfl)
  | .arr a, .arr b =>
      match jsonListDecEq a b with
      | isTrue h => isTrue (by rw [h])
      | isFalse h => isFalse (by intro hh; cases hh; exact h rfl)
  | .obj a, .obj b =>
      match jsonObjDecEq a b with
      | isTrue h => isTrue (by rw [h])
      | isFalse h => isFalse (by intro hh; cases hh; exact h rfl)
  | .null, .bool _ | .null, .num _ | .null, .str _ | .null, .arr _ | .null, .obj _
  | .bool _, .null | .bool _, .num _ | .bool _, .str _ | .bool _, .arr _ | .bool _, .obj _
  | .num _, .null | .num _, .bool _ | .num _, .str _ | .num _, .arr _ | .num _, .obj _
  | .str _, .null | .str _, .bool _ | .str _, .num _ | .str _, .arr _ | .str _, .obj _
  | .arr _, .null | .arr _, .bool _ | .arr _, .num _ | .arr _, .str _ | .arr _, .obj _
  | .obj _, .null | .obj _, .bool _ | .obj _, .num _ | .obj _, .str _ | .obj _, .arr _ =>
      isFalse (fun h => Json.noConfusion h)

/-- Decidable equality on lists of `Json`. -/
def jsonListDecEq : (a b : List Json) → Decidable (a = b)
  | [], [] => isTrue rfl
  | [], _ :: _ => isFalse (fun h => List.noConfusion h)
  | _ :: _, [] => isFalse (fun h => List.noConfusion h)
  | x :: xs, y :: ys =>
      match jsonDecEq x y with
      | isFalse h1 => isFalse (by intro hh; cases hh; exact h1 rfl)
      | isTrue h1 =>
        match jsonListDecEq xs ys with
        | isTrue h2 => isTrue (by rw [h1, h2])
        | isFalse h2 => isFalse (by intro hh; cases hh; exact h2 rfl)

/-- Decidable equality on `Json` object entry lists. -/
def jsonObjDecEq : (a b : List (String × Json)) → Decidable (a = b)
  | [], [] => isTrue rfl
  | [], _ :: _ => isFalse (fun h => List.noConfusion h)
  | _ :: _, [] => isFalse (fun h => List.noConfusion h)
  | (k1, v1) :: xs, (k2, v2) :: ys =>
      if h0 : k1 = k2 then
        match jsonDecEq v1 v2 with
        | isFalse h1 => isFalse (by intro hh; cases hh; exact h1 rfl)
        | isTrue h1 =>
          match jsonObjDecEq xs ys with
          | isTrue h2 => isTrue (by rw [h0, h1, h2])
          | isFalse h2 => isFalse (by intro hh; cases hh; exact h2 rfl)
      else isFalse (by intro hh; cases hh; exact h0 rfl)

end

instance : DecidableEq Json := jsonDecEq

/-- Python exceptions that the embedded fragment can raise. -/
inductive PyErr where
  | attributeError (msg : String) : PyErr
  | typeError (msg : String) : PyErr
  | keyError (msg : String) : PyErr
deriving DecidableEq, Repr

/-- Decidable equality for `Except` results (used to evaluate the
embedding on concrete inputs). -/
instance exceptDecEq {e a : Type} [DecidableEq e] [DecidableEq a] :
    DecidableEq (Except e a) := fun x y =>
  match x, y with
  | .ok v, .ok w =>
      if h : v = w then isTrue (by rw [h]) else isFalse (by intro hh; cases hh; exact h rfl)
  | .error v, .error w =>
      if h : v = w then isTrue (by rw [h]) else isFalse (by intro hh; cases hh; exact h rfl)
  | .ok _, .error _ => isFalse (fun h => Except.noConfusion h)
  | .error _, .ok _ => isFalse (fun h => Except.noConfusion h)

/-! ## Python semantics helpers -/

mutual

/-- Python `repr` of a decoded JSON value, as used by `str()` on containers.
String quoting is modelled as a plain single-quote wrapper (CPython escapes
quote characters inside the string; no theorem below depends on the
rendering of containers or quoted strings). -/
def pyRepr : Json → String
  | .null => "None"
  | .bool true => "True"
  | .bool false => "False"
  | .num n => toString n
  | .str s => "\x27" ++ s ++ "\x27"
  | .arr l => "[" ++ pyReprList l ++ "]"
  | .obj l => "\x7b" ++ pyReprObj l ++ "\x7d"

/-- Comma-separated `repr` of list elements. -/
def pyReprList : List Json → String
  | [] => ""
  | [x] => pyRepr x
  | x :: y :: rest => pyRepr x ++ ", " ++ pyReprList (y :: rest)

/-- Comma-separated `repr` of dict entries. -/
def pyReprObj : List (String × Json) → String
  | [] => ""
  | [(k, v)] => "\x27" ++ k ++ "\x27: " ++ pyRepr v
  | (k, v) :: y :: rest => "\x27" ++ k ++ "\x27: " ++ pyRepr v ++ ", " ++ pyReprObj (y :: rest)

end

/-- Python `str()` of a decoded JSON value, as interpolated by f-strings:
a string renders as itself, everything else via `repr`. -/
def pyStr : Json → String
  | .str s => s
  | v => pyRepr v

/-- Python truthiness of a decoded JSON value (`if x:`). -/
def Json.truthy : Json → Bool
  | .null => false
  | .bool b => b
  | .num n => n != 0
  | .str s => !s.isEmpty
  | .arr l => !l.isEmpty
  | .obj l => !l.isEmpty

/-- First-match lookup in a dict's entry list.  `json.loads` produces dicts
with unique keys, so first match is the only match. -/
def lookupKey : List (String × Json) → String → Option Json
  | [], _ => none
  | (k1, v) :: rest, k => if k1 = k then some v else lookupKey rest k

/-- Python `d.get(k, default)`: defined on dicts, `AttributeError` on any
other value. -/
def Json.get (j : Json) (k : String) (d : Json) : Except PyErr Json :=
  match j with
  | .obj entries => .ok ((lookupKey entries k).getD d)
  | _ => .error (.attributeError "get")

/-- Python `k in d` membership test.  Only the dict case is reachable in the
embedded code (each use site is preceded by a `.get` or subscription on the
same value, which already raises on non-dicts), so non-dict membership is
modelled as an error. -/
def Json.hasKey (j : Json) (k : String) : Except PyErr Bool :=
  match j with
  | .obj entries => .ok (entries.any (fun p => p.1 = k))
  | _ => .error (.typeError "in")

/-- Python `d[k]` subscription on a dict: `KeyError` when absent,
`TypeError` on non-dicts (only the dict case is reachable here). -/
def Json.index (j : Json) (k : String) : Except PyErr Json :=
  match j with
  | .obj entries =>
      match lookupKey entries k with
      | some v => .ok v
      | none => .error (.keyError k)
  | _ => .error (.typeError "subscript")

/-- Python `d.items()`: defined on dicts, `AttributeError` otherwise. -/
def Json.items (j : Json) : Except PyErr (List (String × Json)) :=
  match j with
  | .obj entries => .ok entries
  | _ => .error (.attributeError "items")

/-- Python iteration over a value (`for x in v`): lists yield elements,
strings yield one-character strings, dicts yield their keys, everything
else raises `TypeError`. -/
def pyIter : Json → Except PyErr (List Json)
  | .arr l => .ok l
  | .str s => .ok (s.toList.map (fun c => .str (String.mk [c])))
  | .obj l => .ok (l.map (fun p => .str p.1))
  | _ => .error (.typeError "not iterable")

/-- Python `len()`: defined on lists, strings and dicts. -/
def pyLen : Json → Except PyErr Nat
  | .arr l => .ok l.length
  | .str s => .ok s.length
  | .obj l => .ok l.length
  | _ => .error (.typeError "no len")

/-- ASCII upper-casing of a plain string (`str.upper`; every claim
involving it is ASCII). -/
def pyUpper (s : String) : String :=
  String.mk (s.toList.map Char.toUpper)

/-- Python `s.upper()` on a decoded JSON value: defined on strings only. -/
def Json.upper : Json → Except PyErr String
  | .str s => .ok (pyUpper s)
  | _ => .error (.attributeError "upper")

/-- Python whitespace characters stripped by `str.strip()` (ASCII fragment). -/
def isPySpace (c : Char) : Bool :=
  c = ' ' || c = '\t' || c = '\n' || c = '\r' || c = '\x0b' || c = '\x0c'

/-- Python `s.strip()`: drop leading and trailing whitespace. -/
def pyStrip (s : String) : String :=
  String.mk (((s.toList.dropWhile isPySpace).reverse.dropWhile isPySpace).reverse)

/-- Helper for `pySplitNl`: consume characters, breaking at newlines;
`acc` holds the current chunk reversed. -/
def splitLinesAux : List Char → List Char → List String
  | [], acc => [String.mk acc.reverse]
  | c :: cs, acc =>
      if c = '\n' then String.mk acc.reverse :: splitLinesAux cs []
      else splitLinesAux cs (c :: acc)

/-- Python `s.split('\n')`: split on every newline, keeping empty chunks
(so `"a\n\nb"` gives `["a", "", "b"]` and `""` gives `[""]`). -/
def pySplitNl (s : String) : List String :=
  splitLinesAux s.toList []

/-- The 80-character separator `'='*80` of the banner lines. -/
def bar : String := String.mk (List.replicate 80 (Char.ofNat 61))

/-! ## Embedding of `AlertWebhookHandler.handle_alert`

Each `print(...)` becomes one string in the returned list.  The source is
split into one Lean definition per block of the Python function; the blocks
are composed in source order by `handleAlert`. -/

/-- Embedding of lines 49-54: the `groupLabels` block. -/
def formatGroupSection (group_labels : Json) : Except PyErr (List String) := do
  if group_labels.truthy then
    let name ← group_labels.get "alertname" (Json.str "Unknown")
    let hasCluster ← group_labels.hasKey "cluster"
    let clusterLines ← if hasCluster then do
        let v ← group_labels.index "cluster"
        pure ["🏢 Cluster: " ++ pyStr v]
      else pure ([] : List String)
    let hasService ← group_labels.hasKey "service"
    let serviceLines ← if hasService then do
        let v ← group_labels.index "service"
        pure ["🔧 Service: " ++ pyStr v]
      else pure ([] : List String)
    return ("📋 Group: " ++ pyStr name) :: (clusterLines ++ serviceLines)
  else
    return []

/-- Embedding of lines 57-61: the `commonLabels` block. -/
def formatCommonSection (common_labels : Json) : Except PyErr (List String) := do
  if common_labels.truthy then
    let severity ← common_labels.get "severity" (Json.str "unknown")
    let category ← common_labels.get "category" (Json.str "unknown")
    let sevUpper ← severity.upper
    return ["⚡ Severity: " ++ sevUpper, "📂 Category: " ++ pyStr category]
  else
    return []

/-- The four label keys excluded from the per-alert label listing
(line 77). -/
def excludedLabelKeys : List String := ["alertname", "severity", "category", "service"]

/-- Embedding of lines 73-78: the per-alert `labels` block. -/
def formatLabels (labels : Json) : Except PyErr (List String) := do
  if labels.truthy then
    let entries ← labels.items
    return "   📍 Labels:" :: entries.filterMap (fun p =>
      if p.1 ∈ excludedLabelKeys then none
      else some ("      " ++ p.1 ++ ": " ++ pyStr p.2))
  else
    return []

/-- Embedding of lines 84-97: the body of the annotation loop for one
`(key, value)` pair. -/
def annotationRender (key : String) (value : Json) : Except PyErr (List String) :=
  if key = "summary" then .ok ["      Summary: " ++ pyStr value]
  else if key = "description" then
    match value with
    | .str s =>
        .ok ("      Description:" ::
          (pySplitNl s).filterMap (fun line =>
            if (pyStrip line).isEmpty then none
            else some ("        " ++ pyStrip line)))
    | _ => .error (.attributeError "split")
  else if key = "runbook_url" then .ok ["      Runbook: " ++ pyStr value]
  else if key = "dashboard_url" then .ok ["      Dashboard: " ++ pyStr value]
  else .ok []

/-- Embedding of the `for key, value in annotations.items()` loop
(lines 84-97): concatenation of the lines of each iteration, in iteration
order. -/
def annotationLoop : List (String × Json) → Except PyErr (List String)
  | [] => .ok []
  | p :: rest => do
      let firstLines ← annotationRender p.1 p.2
      let restLines ← annotationLoop rest
      return firstLines ++ restLines

/-- Embedding of lines 81-97: the per-alert `annotations` block. -/
def formatAnnotations (annotations : Json) : Except PyErr (List String) := do
  if annotations.truthy then
    let entries ← annotations.items
    let lines ← annotationLoop entries
    return "   📝 Details:" :: lines
  else
    return []

/-- Embedding of lines 100-103: the per-alert timing block. -/
def formatTiming (alert : Json) : Except PyErr (List String) := do
  let hasStarts ← alert.hasKey "startsAt"
  let startLines ← if hasStarts then do
      let v ← alert.index "startsAt"
      pure ["   ⏰ Started: " ++ pyStr v]
    else pure ([] : List String)
  let hasEnds ← alert.hasKey "endsAt"
  let endLines ← if hasEnds then do
      let v ← alert.index "endsAt"
      if v ≠ Json.str "0001-01-01T00:00:00Z" then
        pure ["   ⏹️  Ended: " ++ pyStr v]
      else pure ([] : List String)
    else pure ([] : List String)
  return startLines ++ endLines

/-- Embedding of lines 65-103: the loop body for the alert numbered `i`
(`enumerate(alerts, 1)` starts at 1). -/
def formatAlert (i : Nat) (alert : Json) : Except PyErr (List String) := do
  let alert_status ← alert.get "status" (Json.str "unknown")
  let status_emoji := if alert_status = Json.str "firing" then "🚨" else "✅"
  let statusUpper ← alert_status.upper
  let labels ← alert.get "labels" (Json.obj [])
  let labelLines ← formatLabels labels
  let annotations ← alert.get "annotations" (Json.obj [])
  let annotLines ← formatAnnotations annotations
  let timingLines ← formatTiming alert
  return ("\n🔔 Alert #" ++ toString i ++ ":") ::
    ("   Status: " ++ status_emoji ++ " " ++ statusUpper) ::
    (labelLines ++ annotLines ++ timingLines)

/-- Embedding of the `for i, alert in enumerate(alerts, 1)` loop (line 64),
starting from index `i`. -/
def formatAlerts : Nat → List Json → Except PyErr (List String)
  | _, [] => .ok []
  | i, a :: rest => do
      let firstLines ← formatAlert i a
      let restLines ← formatAlerts (i + 1) rest
      return firstLines ++ restLines

/-- Embedding of `handle_alert` (lines 33-107).  `timestamp` stands for
`datetime.now().strftime("%Y-%m-%d %H:%M:%S")`.  The bindings of the
top-level `status` and `commonAnnotations` fields are kept (they cannot
raise once `alert_data` is a dict) but, as in the source, never used. -/
def handleAlert (timestamp : String) (alert_data : Json) : Except PyErr (List String) := do
  let _status ← alert_data.get "status" (Json.str "unknown")
  let group_labels ← alert_data.get "groupLabels" (Json.obj [])
  let common_labels ← alert_data.get "commonLabels" (Json.obj [])
  let _common_annotations ← alert_data.get "commonAnnotations" (Json.obj [])
  let alerts ← alert_data.get "alerts" (Json.arr [])
  let groupLines ← formatGroupSection group_labels
  let commonLines ← formatCommonSection common_labels
  let alertItems ← pyIter alerts
  let alertLines ← formatAlerts 1 alertItems
  let n ← pyLen alerts
  return ("\n" ++ bar) :: ("🚨 ALERT RECEIVED - " ++ timestamp) :: bar ::
    (groupLines ++ commonLines ++ alertLines ++
      [bar, "📊 Total alerts in group: " ++ toString n, bar ++ "\n"])

/-! ## Embedding of `AlertWebhookHandler.do_POST` -/

/-- Outcome of decoding the POST body, `json.loads(post_data.decode('utf-8'))`:
the body bytes are not valid UTF-8 (`UnicodeDecodeError`), or the decoded
text is not valid JSON (`json.JSONDecodeError` with message `msg`), or a
decoded JSON value. -/
inductive DecodeOutcome where
  | badUtf8 : DecodeOutcome
  | badJson (msg : String) : DecodeOutcome
  | ok (j : Json) : DecodeOutcome
deriving DecidableEq, Repr

/-- Observable outcome of one `do_POST` call.  `status`, `contentType` and
`body` are `none` when an uncaught exception propagates out of the handler
before the corresponding write (no response is sent in that case);
`consoleError` is the error line printed by the `except` clause;
`formatterCalled` records whether `handle_alert` was invoked. -/
structure PostOutcome where
  status : Option Nat
  contentType : Option String
  body : Option String
  consoleError : Option String
  formatterCalled : Bool
deriving DecidableEq, Repr

/-- Embedding of `do_POST` (lines 15-31), given the outcome of decoding the
body.  The `except` clause names `json.JSONDecodeError` only: a
`UnicodeDecodeError` from `.decode('utf-8')` and any exception raised by
`handle_alert` are not caught and propagate, so no response is sent. -/
def doPOST (timestamp : String) (d : DecodeOutcome) : PostOutcome :=
  match d with
  | .badUtf8 =>
      { status := none, contentType := none, body := none,
        consoleError := none, formatterCalled := false }
  | .badJson msg =>
      { status := some 400, contentType := none, body := none,
        consoleError := some ("❌ Error parsing JSON: " ++ msg),
        formatterCalled := false }
  | .ok j =>
      match handleAlert timestamp j with
      | .error _ =>
          { status := none, contentType := none, body := none,
            consoleError := none, formatterCalled := true }
      | .ok _ =>
          { status := some 200, contentType := some "application/json",
            body := some "\x7b\"status\": \"success\"\x7d",
            consoleError := none, formatterCalled := true }

/-! ## Shape predicates

The payload schema documented in the spec (section 3), as a decidable
predicate: every field is optional, and a present field has its documented
shape.  Exactly the fields whose shape the formatter relies on are
constrained (`status` values and `description` annotation values must be
strings because `.upper()` / `.split()` is called on them; `groupLabels`,
`commonLabels`, `labels`, `annotations` must be dicts; `alerts` must be a
list of alert records). -/

/-- Whether a value is a JSON string. -/
def Json.isStr : Json → Bool
  | .str _ => true
  | _ => false

/-- Whether a value is a JSON object. -/
def Json.isObj : Json → Bool
  | .obj _ => true
  | _ => false

/-- Entry list of an object, `[]` on anything else. -/
def objEntries : Json → List (String × Json)
  | .obj entries => entries
  | _ => []

/-- Element list of an array, `[]` on anything else. -/
def arrElems : Json → List Json
  | .arr elems => elems
  | _ => []

/-- Documented shape of an `annotations` mapping: an object whose
`description` value, when present, is a string. -/
def wfAnnotationsVal : Json → Bool
  | .obj entries => entries.all (fun p => if p.1 = "description" then p.2.isStr else true)
  | _ => false

/-- Documented shape of one alert record: an object whose `status` value is
a string, whose `labels` value is an object and whose `annotations` value
has the documented annotation shape, each when present. -/
def wfAlertRecord : Json → Bool
  | .obj entries => entries.all (fun p =>
      if p.1 = "status" then p.2.isStr
      else if p.1 = "labels" then p.2.isObj
      else if p.1 = "annotations" then wfAnnotationsVal p.2
      else true)
  | _ => false

/-- Documented shape of the `commonLabels` mapping: an object whose
`severity` value, when present, is a string. -/
def wfCommonLabels : Json → Bool
  | .obj entries => entries.all (fun p => if p.1 = "severity" then p.2.isStr else true)
  | _ => false

/-- Documented shape of one top-level field. -/
def wfTopEntry (p : String × Json) : Bool :=
  if p.1 = "groupLabels" then p.2.isObj
  else if p.1 = "commonLabels" then wfCommonLabels p.2
  else if p.1 = "alerts" then
    match p.2 with
    | .arr elems => elems.all wfAlertRecord
    | _ => false
  else true

/-- Documented shape of the top-level payload: an object each of whose
documented fields, when present, has its documented shape. -/
def wfTop : Json → Bool
  | .obj entries => entries.all wfTopEntry
  | _ => false

/-! ## Total models of the formatter sections

For inputs of the documented shape the formatter cannot raise; these total
functions compute its output and are proven to agree with the embedded
(exception-aware) definitions. -/

/-- Lines of the `groupLabels` block. -/
def groupLinesT (gl : List (String × Json)) : List String :=
  if gl.isEmpty then [] else
    ("📋 Group: " ++ pyStr ((lookupKey gl "alertname").getD (Json.str "Unknown"))) ::
    ((match lookupKey gl "cluster" with
      | some v => ["🏢 Cluster: " ++ pyStr v]
      | none => []) ++
     (match lookupKey gl "service" with
      | some v => ["🔧 Service: " ++ pyStr v]
      | none => []))

/-- The severity string the `commonLabels` block upper-cases (default
`"unknown"`; the non-string branch is unreachable for well-shaped input). -/
def severityStrT (cl : List (String × Json)) : String :=
  match (lookupKey cl "severity").getD (Json.str "unknown") with
  | .str s => s
  | _ => ""

/-- Lines of the `commonLabels` block. -/
def commonLinesT (cl : List (String × Json)) : List String :=
  if cl.isEmpty then [] else
    ["⚡ Severity: " ++ pyUpper (severityStrT cl),
     "📂 Category: " ++ pyStr ((lookupKey cl "category").getD (Json.str "unknown"))]

/-- Lines of the per-alert label listing. -/
def labelLinesT (entries : List (String × Json)) : List String :=
  if entries.isEmpty then [] else
    "   📍 Labels:" :: entries.filterMap (fun p =>
      if p.1 ∈ excludedLabelKeys then none
      else some ("      " ++ p.1 ++ ": " ++ pyStr p.2))

/-- Indented lines produced from a `description` annotation value: split on
newlines, trim each line, drop blank lines. -/
def descLinesT (s : String) : List String :=
  (pySplitNl s).filterMap (fun line =>
    if (pyStrip line).isEmpty then none
    else some ("        " ++ pyStrip line))

/-- Lines produced by one `(key, value)` annotation pair. -/
def annotationRenderT (key : String) (value : Json) : List String :=
  if key = "summary" then ["      Summary: " ++ pyStr value]
  else if key = "description" then
    "      Description:" :: (match value with | .str s => descLinesT s | _ => [])
  else if key = "runbook_url" then ["      Runbook: " ++ pyStr value]
  else if key = "dashboard_url" then ["      Dashboard: " ++ pyStr value]
  else []

/-- Lines of the per-alert annotations block. -/
def annotationLinesT (entries : List (String × Json)) : List String :=
  if entries.isEmpty then [] else
    "   📝 Details:" :: (entries.map (fun p => annotationRenderT p.1 p.2)).flatten

/-- Lines of the per-alert timing block. -/
def timingLinesT (entries : List (String × Json)) : List String :=
  (match lookupKey entries "startsAt" with
   | some v => ["   ⏰ Started: " ++ pyStr v]
   | none => []) ++
  (match lookupKey entries "endsAt" with
   | some v =>
       if v = Json.str "0001-01-01T00:00:00Z" then []
       else ["   ⏹️  Ended: " ++ pyStr v]
   | none => [])

/-- The status string of one alert record (default `"unknown"`; the
non-string branch is unreachable for well-shaped input). -/
def statusStrT (entries : List (String × Json)) : String :=
  match (lookupKey entries "status").getD (Json.str "unknown") with
  | .str s => s
  | _ => ""

/-- Lines of the section for the alert numbered `i`. -/
def alertLinesT (i : Nat) (a : Json) : List String :=
  ("\n🔔 Alert #" ++ toString i ++ ":") ::
  ("   Status: " ++
     (if (lookupKey (objEntries a) "status").getD (Json.str "unknown") = Json.str "firing"
      then "🚨" else "✅") ++ " " ++ pyUpper (statusStrT (objEntries a))) ::
  (labelLinesT (objEntries ((lookupKey (objEntries a) "labels").getD (Json.obj []))) ++
   annotationLinesT (objEntries ((lookupKey (objEntries a) "annotations").getD (Json.obj []))) ++
   timingLinesT (objEntries a))

/-- Lines of all alert sections, numbering from `i`. -/
def alertsLinesT : Nat → List Json → List String
  | _, [] => []
  | i, a :: rest => alertLinesT i a ++ alertsLinesT (i + 1) rest

/-- The complete report for a well-shaped top-level object. -/
def reportLinesT (timestamp : String) (l : List (String × Json)) : List String :=
  ("\n" ++ bar) :: ("🚨 ALERT RECEIVED - " ++ timestamp) :: bar ::
    (groupLinesT (objEntries ((lookupKey l "groupLabels").getD (Json.obj []))) ++
     commonLinesT (objEntries ((lookupKey l "commonLabels").getD (Json.obj []))) ++
     alertsLinesT 1 (arrElems ((lookupKey l "alerts").getD (Json.arr []))) ++
     [bar,
      "📊 Total alerts in group: " ++
        toString (arrElems ((lookupKey l "alerts").getD (Json.arr []))).length,
      bar ++ "\n"])

/-! ## Per-alert sections as a list of blocks -/

/-- The per-alert sections as separate blocks, numbering from `i`. -/
def alertSectionsT : Nat → List Json → List (List String)
  | _, [] => []
  | i, a :: rest => alertLinesT i a :: alertSectionsT (i + 1) rest

/-- First lines expected of consecutive alert sections: block `j` (0-based)
of a run starting at number `i` is headed by alert number `i + j`. -/
def sectionHeadsT (i : Nat) : Nat → List (Option String)
  | 0 => []
  | Nat.succ m => some ("\n🔔 Alert #" ++ toString i ++ ":") :: sectionHeadsT (i + 1) m

/-! ## Definitions written from the specification text

Each of these follows the spec's (or an amended claim's) wording rather
than the source; the claim theorems compare them with the embedded code. -/

/-- Spec: if `startsAt` is present, print it verbatim. -/
def startedLinesSpec (entries : List (String × Json)) : List String :=
  match lookupKey entries "startsAt" with
  | some v => ["   ⏰ Started: " ++ pyStr v]
  | none => []

/-- Spec: the "Ended" line appears exactly when `endsAt` is present with a
value other than the sentinel string `0001-01-01T00:00:00Z`, verbatim. -/
def endedLinesSpec (entries : List (String × Json)) : List String :=
  match lookupKey entries "endsAt" with
  | some v =>
      if v = Json.str "0001-01-01T00:00:00Z" then []
      else ["   ⏹️  Ended: " ++ pyStr v]
  | none => []

/-- Spec: print every label key/value pair except the four group-level
keys `alertname`, `severity`, `category`, `service`. -/
def specLabelRender (p : String × Json) : Option String :=
  if p.1 = "alertname" ∨ p.1 = "severity" ∨ p.1 = "category" ∨ p.1 = "service" then none
  else some ("      " ++ p.1 ++ ": " ++ pyStr p.2)

/-- Spec: split the description value on newline characters, drop blank
lines, print each remaining line trimmed of surrounding whitespace as its
own indented line. -/
def specDescription (value : String) : List String :=
  (((pySplitNl value).filter (fun line => !(pyStrip line).isEmpty))).map
    (fun line => "        " ++ pyStrip line)

/-- The four recognized annotation keys. -/
def recognizedAnnotationKeys : List String :=
  ["summary", "description", "runbook_url", "dashboard_url"]

/-! ## Basic reduction lemmas -/

theorem pure_eq_ok {α : Type} (a : α) : (pure a : Except PyErr α) = Except.ok a := rfl

theorem ok_bind {α β : Type} (a : α) (f : α → Except PyErr β) :
    (Except.ok a : Except PyErr α) >>= f = f a := rfl

theorem error_bind {α β : Type} (e : PyErr) (f : α → Except PyErr β) :
    (Except.error e : Except PyErr α) >>= f = (Except.error e : Except PyErr β) := rfl

theorem get_obj (entries : List (String × Json)) (k : String) (d : Json) :
    Json.get (Json.obj entries) k d = .ok ((lookupKey entries k).getD d) := rfl

theorem hasKey_obj (entries : List (String × Json)) (k : String) :
    Json.hasKey (Json.obj entries) k = .ok (entries.any (fun p => p.1 = k)) := rfl

theorem items_obj (entries : List (String × Json)) :
    Json.items (Json.obj entries) = .ok entries := rfl

/-- Key membership `any` agrees with `lookupKey` success. -/
theorem any_key_eq_lookup_isSome (l : List (String × Json)) (k : String) :
    l.any (fun p => p.1 = k) = (lookupKey l k).isSome := by
  induction l with
  | nil => rfl
  | cons p rest ih =>
      obtain ⟨k1, v⟩ := p
      by_cases h : k1 = k
      · simp [lookupKey, h, List.any_cons]
      · simp [lookupKey, h, List.any_cons, ih]

/-- A value found by `lookupKey` in a list satisfying `all P` satisfies `P`
at its key. -/
theorem lookupKey_all {P : String × Json → Bool} {l : List (String × Json)}
    {k : String} {v : Json} (hall : l.all P = true) (hl : lookupKey l k = some v) :
    P (k, v) = true := by
  induction l with
  | nil => simp [lookupKey] at hl
  | cons p rest ih =>
      obtain ⟨k1, v1⟩ := p
      rw [List.all_cons, Bool.and_eq_true] at hall
      by_cases h : k1 = k
      · rw [lookupKey, if_pos h] at hl
        cases hl
        subst h
        exact hall.1
      · rw [lookupKey, if_neg h] at hl
        exact ih hall.2 hl

theorem truthy_obj (l : List (String × Json)) :
    Json.truthy (Json.obj l) = !l.isEmpty := rfl

/-! ## Agreement of the embedded sections with the total models -/

theorem formatGroupSection_obj (gl : List (String × Json)) :
    formatGroupSection (Json.obj gl) = .ok (groupLinesT gl) := by
  cases hgl : gl.isEmpty with
  | true =>
      simp only [formatGroupSection, groupLinesT, truthy_obj, hgl]
      rfl
  | false =>
      simp only [formatGroupSection, groupLinesT, truthy_obj, hgl, get_obj, hasKey_obj,
        any_key_eq_lookup_isSome, Bool.not_false, if_true, ok_bind]
      cases hc : lookupKey gl "cluster" <;> cases hs : lookupKey gl "service" <;>
        simp [hc, hs, Json.index, ok_bind, pure_eq_ok]

theorem formatCommonSection_obj (cl : List (String × Json))
    (hwf : wfCommonLabels (Json.obj cl) = true) :
    formatCommonSection (Json.obj cl) = .ok (commonLinesT cl) := by
  have hsev : ((lookupKey cl "severity").getD (Json.str "unknown")).isStr = true := by
    cases hs : lookupKey cl "severity" with
    | none => rfl
    | some v =>
        have := lookupKey_all (P := fun p => if p.1 = "severity" then p.2.isStr else true)
          hwf hs
        simpa using this
  cases hcl : cl.isEmpty with
  | true =>
      simp only [formatCommonSection, commonLinesT, truthy_obj, hcl]
      rfl
  | false =>
      obtain ⟨s, hs⟩ : ∃ s, (lookupKey cl "severity").getD (Json.str "unknown") = Json.str s := by
        cases h : (lookupKey cl "severity").getD (Json.str "unknown") <;>
          simp [h, Json.isStr] at hsev ⊢
      simp only [formatCommonSection, commonLinesT, truthy_obj, hcl, get_obj, ok_bind,
        Bool.not_false, if_true, hs, Json.upper, severityStrT]
      rfl

theorem formatLabels_obj (entries : List (String × Json)) :
    formatLabels (Json.obj entries) = .ok (labelLinesT entries) := by
  cases he : entries.isEmpty <;>
    simp [formatLabels, labelLinesT, truthy_obj, he, items_obj, ok_bind, pure_eq_ok]

theorem formatTiming_obj (entries : List (String × Json)) :
    formatTiming (Json.obj entries) = .ok (timingLinesT entries) := by
  simp only [formatTiming, timingLinesT, hasKey_obj, any_key_eq_lookup_isSome, ok_bind]
  cases hst : lookupKey entries "startsAt" <;> cases hen : lookupKey entries "endsAt" <;>
    simp only [hst, hen, Option.isSome_some, Option.isSome_none, if_true, if_false,
      Json.index, ok_bind] <;>
    first
    | rfl
    | (rename_i v
       by_cases hv : v = Json.str "0001-01-01T00:00:00Z" <;>
         simp [hv, ok_bind, pure_eq_ok])

theorem isStr_exists {v : Json} (h : v.isStr = true) : ∃ s, v = Json.str s := by
  cases v
  case str s => exact ⟨s, rfl⟩
  all_goals simp [Json.isStr] at h

theorem isObj_exists {v : Json} (h : v.isObj = true) : ∃ entries, v = Json.obj entries := by
  cases v
  case obj entries => exact ⟨entries, rfl⟩
  all_goals simp [Json.isObj] at h

theorem annotationRender_ok (key : String) (value : Json)
    (h : key = "description" → value.isStr = true) :
    annotationRender key value = .ok (annotationRenderT key value) := by
  by_cases h1 : key = "summary"
  · simp [annotationRender, annotationRenderT, h1]
  · by_cases h2 : key = "description"
    · obtain ⟨s, rfl⟩ := isStr_exists (h h2)
      simp [annotationRender, annotationRenderT, h1, h2, descLinesT]
    · by_cases h3 : key = "runbook_url" <;> by_cases h4 : key = "dashboard_url" <;>
        simp [annotationRender, annotationRenderT, h1, h2, h3, h4]

theorem annotationLoop_ok (entries : List (String × Json))
    (h : ∀ p ∈ entries, p.1 = "description" → p.2.isStr = true) :
    annotationLoop entries =
      .ok ((entries.map (fun p => annotationRenderT p.1 p.2)).flatten) := by
  induction entries with
  | nil => rfl
  | cons p rest ih =>
      rw [annotationLoop, annotationRender_ok p.1 p.2 (h p (List.mem_cons_self p rest)),
        ok_bind, ih (fun q hq => h q (List.mem_cons_of_mem p hq)), ok_bind]
      simp [pure_eq_ok]

theorem formatAnnotations_obj (entries : List (String × Json))
    (hwf : wfAnnotationsVal (Json.obj entries) = true) :
    formatAnnotations (Json.obj entries) = .ok (annotationLinesT entries) := by
  have h : ∀ p ∈ entries, p.1 = "description" → p.2.isStr = true := by
    intro p hp hk
    have hall : entries.all (fun p => if p.1 = "description" then p.2.isStr else true) = true := hwf
    have := List.all_eq_true.mp hall p hp
    rw [if_pos hk] at this
    exact this
  cases he : entries.isEmpty with
  | true =>
      simp only [formatAnnotations, annotationLinesT, truthy_obj, he]
      rfl
  | false =>
      simp only [formatAnnotations, annotationLinesT, truthy_obj, he, items_obj, ok_bind,
        annotationLoop_ok entries h, Bool.not_false, if_true, pure_eq_ok]
      rfl

theorem formatAlert_ok (i : Nat) (a : Json) (hwf : wfAlertRecord a = true) :
    formatAlert i a = .ok (alertLinesT i a) := by
  obtain ⟨entries, rfl⟩ : ∃ entries, a = Json.obj entries := by
    cases a
    case obj entries => exact ⟨entries, rfl⟩
    all_goals simp [wfAlertRecord] at hwf
  have hall : entries.all (fun p =>
      if p.1 = "status" then p.2.isStr
      else if p.1 = "labels" then p.2.isObj
      else if p.1 = "annotations" then wfAnnotationsVal p.2
      else true) = true := hwf
  have hstat : ((lookupKey entries "status").getD (Json.str "unknown")).isStr = true := by
    cases hs : lookupKey entries "status" with
    | none => rfl
    | some v =>
        have := lookupKey_all hall hs
        simpa using this
  have hlab : ((lookupKey entries "labels").getD (Json.obj [])).isObj = true := by
    cases hs : lookupKey entries "labels" with
    | none => rfl
    | some v =>
        have := lookupKey_all hall hs
        simpa using this
  have hann : wfAnnotationsVal ((lookupKey entries "annotations").getD (Json.obj [])) = true := by
    cases hs : lookupKey entries "annotations" with
    | none => rfl
    | some v =>
        have := lookupKey_all hall hs
        simpa using this
  obtain ⟨s, hs⟩ := isStr_exists hstat
  obtain ⟨le, hle⟩ := isObj_exists hlab
  obtain ⟨ae, hae⟩ : ∃ ae, (lookupKey entries "annotations").getD (Json.obj []) = Json.obj ae := by
    apply isObj_exists
    cases h : (lookupKey entries "annotations").getD (Json.obj []) <;>
      rw [h] at hann <;> simp [wfAnnotationsVal, Json.isObj] at hann ⊢
  rw [hae] at hann
  simp only [formatAlert, alertLinesT, get_obj, ok_bind, hs, hle, hae, Json.upper,
    formatLabels_obj, formatAnnotations_obj ae hann, formatTiming_obj, statusStrT,
    objEntries, pure_eq_ok]

theorem formatAlerts_ok (i : Nat) (l : List Json)
    (hwf : ∀ a ∈ l, wfAlertRecord a = true) :
    formatAlerts i l = .ok (alertsLinesT i l) := by
  induction l generalizing i with
  | nil => rfl
  | cons a rest ih =>
      rw [formatAlerts, formatAlert_ok i a (hwf a (List.mem_cons_self a rest)), ok_bind,
        ih (i + 1) (fun q hq => hwf q (List.mem_cons_of_mem a hq)), ok_bind]
      simp [alertsLinesT, pure_eq_ok]

/-- Master characterization: on any top-level object of the documented
shape, `handle_alert` raises nothing and prints exactly `reportLinesT`. -/
theorem handleAlert_wf (ts : String) (l : List (String × Json))
    (hwf : wfTop (Json.obj l) = true) :
    handleAlert ts (Json.obj l) = .ok (reportLinesT ts l) := by
  have hall : l.all wfTopEntry = true := hwf
  have hgl : ((lookupKey l "groupLabels").getD (Json.obj [])).isObj = true := by
    cases hs : lookupKey l "groupLabels" with
    | none => rfl
    | some v =>
        have := lookupKey_all hall hs
        simpa [wfTopEntry] using this
  have hcl : wfCommonLabels ((lookupKey l "commonLabels").getD (Json.obj [])) = true := by
    cases hs : lookupKey l "commonLabels" with
    | none => rfl
    | some v =>
        have := lookupKey_all hall hs
        simpa [wfTopEntry] using this
  obtain ⟨al, hal, halwf⟩ :
      ∃ al, (lookupKey l "alerts").getD (Json.arr []) = Json.arr al ∧
        (∀ a ∈ al, wfAlertRecord a = true) := by
    cases hs : lookupKey l "alerts" with
    | none => exact ⟨[], rfl, by intro a ha; simp at ha⟩
    | some v =>
        have := lookupKey_all hall hs
        simp [wfTopEntry] at this
        cases v
        case arr elems =>
          refine ⟨elems, by simp, ?_⟩
          intro a ha
          first
          | exact this a ha
          | exact List.all_eq_true.mp (by simpa using this) a ha
        all_goals simp at this
  obtain ⟨gl, hglE⟩ := isObj_exists hgl
  obtain ⟨cl, hclE⟩ : ∃ cl, (lookupKey l "commonLabels").getD (Json.obj []) = Json.obj cl := by
    apply isObj_exists
    cases h : (lookupKey l "commonLabels").getD (Json.obj []) <;>
      rw [h] at hcl <;> simp [wfCommonLabels, Json.isObj] at hcl ⊢
  rw [hclE] at hcl
  simp only [handleAlert, reportLinesT, get_obj, ok_bind, hglE, hclE, hal,
    formatGroupSection_obj, formatCommonSection_obj cl hcl, pyIter,
    formatAlerts_ok 1 al halwf, pyLen, objEntries, arrElems, pure_eq_ok, ok_bind]

theorem alertsLinesT_eq_flatten (l : List Json) : ∀ i,
    alertsLinesT i l = (alertSectionsT i l).flatten := by
  induction l with
  | nil => intro i; rfl
  | cons a rest ih =>
      intro i
      simp [alertsLinesT, alertSectionsT, ih (i + 1)]

theorem alertSectionsT_heads (l : List Json) : ∀ i,
    (alertSectionsT i l).map (fun sec => sec.head?) = sectionHeadsT i l.length := by
  induction l with
  | nil => intro i; rfl
  | cons a rest ih =>
      intro i
      simp [alertSectionsT, sectionHeadsT, ih (i + 1), alertLinesT]

/-! ## Claims -/

/-- C2: for every top-level JSON object of the documented shape — any
subset of the documented fields absent, every present field with its
documented shape — `handle_alert` completes without raising or propagating
any error: every missing key is replaced by its default or its line is
skipped, and the result is always `ok`. -/
theorem C2_sparse_objects_never_raise (ts : String) (l : List (String × Json))
    (hwf : wfTop (Json.obj l) = true) :
    (handleAlert ts (Json.obj l)).isOk = true := by
  rw [handleAlert_wf ts l hwf]
  rfl

/-- Witness for C2: a concrete sparse payload (no `status`, no
`commonLabels`, no `commonAnnotations`, one empty alert record). -/
theorem C2_sparse_objects_never_raise_witness :
    wfTop (Json.obj [("groupLabels", Json.obj [("alertname", Json.str "A")]),
      ("alerts", Json.arr [Json.obj []])]) = true
    ∧ (handleAlert "2024-01-01 00:00:00"
        (Json.obj [("groupLabels", Json.obj [("alertname", Json.str "A")]),
          ("alerts", Json.arr [Json.obj []])])).isOk = true :=
  ⟨by decide, C2_sparse_objects_never_raise "2024-01-01 00:00:00" _ (by decide)⟩

/-- C7: for every well-shaped top-level object the report equals
`reportLinesT`; the printed total equals the length of the `alerts`
sequence; the per-alert output is the concatenation of per-alert blocks
whose first lines number the alerts 1, 2, ... in original order; and when
the `alerts` key is absent the count line says 0 and there are no
per-alert blocks. -/
theorem C7_count_and_numbering (ts : String) (l : List (String × Json))
    (hwf : wfTop (Json.obj l) = true) :
    handleAlert ts (Json.obj l) = .ok (reportLinesT ts l)
    ∧ ("📊 Total alerts in group: " ++
         toString (arrElems ((lookupKey l "alerts").getD (Json.arr []))).length)
        ∈ reportLinesT ts l
    ∧ alertsLinesT 1 (arrElems ((lookupKey l "alerts").getD (Json.arr []))) =
        (alertSectionsT 1 (arrElems ((lookupKey l "alerts").getD (Json.arr [])))).flatten
    ∧ (alertSectionsT 1 (arrElems ((lookupKey l "alerts").getD (Json.arr [])))).map
        (fun sec => sec.head?) =
        sectionHeadsT 1 (arrElems ((lookupKey l "alerts").getD (Json.arr []))).length
    ∧ (lookupKey l "alerts" = none →
        arrElems ((lookupKey l "alerts").getD (Json.arr [])) = []
        ∧ "📊 Total alerts in group: 0" ∈ reportLinesT ts l
        ∧ alertSectionsT 1 (arrElems ((lookupKey l "alerts").getD (Json.arr []))) = []) := by
  refine ⟨handleAlert_wf ts l hwf, by simp [reportLinesT],
    alertsLinesT_eq_flatten _ 1, alertSectionsT_heads _ 1, ?_⟩
  intro hnone
  refine ⟨by rw [hnone]; rfl, ?_, by rw [hnone]; rfl⟩
  have h0 : ("📊 Total alerts in group: 0" : String) =
      "📊 Total alerts in group: " ++
        toString (arrElems ((lookupKey l "alerts").getD (Json.arr []))).length := by
    rw [hnone]
    rfl
  rw [h0]
  simp [reportLinesT]

/-- C8: when the `commonLabels` block is printed (non-empty mapping of the
documented shape), the severity value is rendered upper-cased with default
`unknown`, and the category value is rendered by `str()` unchanged with
default `unknown`; in particular `critical` renders as `CRITICAL` and an
absent severity renders as `UNKNOWN`. -/
theorem C8_severity_uppercased (cl : List (String × Json))
    (hne : cl.isEmpty = false)
    (hwf : wfCommonLabels (Json.obj cl) = true) :
    formatCommonSection (Json.obj cl) =
      .ok ["⚡ Severity: " ++ pyUpper (severityStrT cl),
           "📂 Category: " ++ pyStr ((lookupKey cl "category").getD (Json.str "unknown"))]
    ∧ (lookupKey cl "severity" = none → severityStrT cl = "unknown")
    ∧ (lookupKey cl "category" = none →
        pyStr ((lookupKey cl "category").getD (Json.str "unknown")) = "unknown")
    ∧ pyUpper "unknown" = "UNKNOWN"
    ∧ pyUpper "critical" = "CRITICAL" := by
  refine ⟨?_, ?_, ?_, by rfl, by rfl⟩
  · rw [formatCommonSection_obj cl hwf, commonLinesT, if_neg (by simp [hne])]
  · intro h
    rw [severityStrT, h]
    rfl
  · intro h
    rw [h]
    rfl

/-- Witness for C8: `commonLabels` with severity `critical` and no
category. -/
theorem C8_severity_uppercased_witness :
    formatCommonSection (Json.obj [("severity", Json.str "critical")]) =
      .ok ["⚡ Severity: CRITICAL", "📂 Category: unknown"]
    ∧ pyUpper "unknown" = "UNKNOWN" := by
  have h := C8_severity_uppercased [("severity", Json.str "critical")] (by decide) (by decide)
  exact ⟨h.1.trans (by rfl), h.2.2.2.1⟩

/-- C9: for every well-shaped alert record, the status line (second line of
its block) shows the record's status upper-cased, defaulting to `unknown`,
and carries the firing marker exactly when the status value is the string
`firing`; the concrete payload of the claim yields two numbered sections,
the first marked firing, the second not, and a final count of 2. -/
theorem C9_status_line (i : Nat) (ts : String) (entries : List (String × Json))
    (hwf : wfAlertRecord (Json.obj entries) = true) :
    formatAlert i (Json.obj entries) = .ok (alertLinesT i (Json.obj entries))
    ∧ (alertLinesT i (Json.obj entries)).get? 1 =
        some ("   Status: " ++
          (if (lookupKey entries "status").getD (Json.str "unknown") = Json.str "firing"
           then "🚨" else "✅") ++ " " ++ pyUpper (statusStrT entries))
    ∧ (lookupKey entries "status" = none → statusStrT entries = "unknown")
    ∧ handleAlert ts (Json.obj [("alerts", Json.arr
        [Json.obj [("status", Json.str "firing")],
         Json.obj [("status", Json.str "resolved")]])]) =
      .ok [("\n" ++ bar), ("🚨 ALERT RECEIVED - " ++ ts), bar,
        "\n🔔 Alert #1:", "   Status: 🚨 FIRING",
        "\n🔔 Alert #2:", "   Status: ✅ RESOLVED",
        bar, "📊 Total alerts in group: 2", bar ++ "\n"] := by
  refine ⟨formatAlert_ok i (Json.obj entries) hwf, by rw [alertLinesT]; rfl, ?_, ?_⟩
  · intro h
    rw [statusStrT, h]
    rfl
  · rw [handleAlert_wf ts _ (by decide)]
    rfl

/-- Witness for C9: one alert record with status `resolved`. -/
theorem C9_status_line_witness :
    formatAlert 1 (Json.obj [("status", Json.str "resolved")]) =
      .ok ["\n🔔 Alert #1:", "   Status: ✅ RESOLVED"]
    ∧ statusStrT [] = "unknown" := by
  have h := C9_status_line 1 "2024-01-01 00:00:00" [("status", Json.str "resolved")] (by decide)
  have h2 := C9_status_line 1 "2024-01-01 00:00:00" [] (by decide)
  exact ⟨h.1.trans (by rfl), h2.2.2.1 rfl⟩

theorem filterMap_if_eq_filter_map (l : List String) :
    l.filterMap (fun line => if (pyStrip line).isEmpty then none
      else some ("        " ++ pyStrip line)) =
    (l.filter (fun line => !(pyStrip line).isEmpty)).map
      (fun line => "        " ++ pyStrip line) := by
  induction l with
  | nil => rfl
  | cons a rest ih => cases hp : (pyStrip a).isEmpty <;> simp [hp, ih]

/-- C4: the "Ended" line of an alert record is printed exactly when the
record has an `endsAt` key whose value is not the sentinel string
`0001-01-01T00:00:00Z`, and a string value is printed verbatim. -/
theorem C4_ended_line_sentinel (entries : List (String × Json)) :
    formatTiming (Json.obj entries) =
      .ok (startedLinesSpec entries ++ endedLinesSpec entries)
    ∧ (endedLinesSpec entries = [] ↔
        (lookupKey entries "endsAt" = none ∨
         lookupKey entries "endsAt" = some (Json.str "0001-01-01T00:00:00Z")))
    ∧ (∀ s, lookupKey entries "endsAt" = some (Json.str s) →
        s ≠ "0001-01-01T00:00:00Z" →
        endedLinesSpec entries = ["   ⏹️  Ended: " ++ s]) := by
  refine ⟨(formatTiming_obj entries).trans (by rfl), ?_, ?_⟩
  · cases h : lookupKey entries "endsAt" with
    | none => simp [endedLinesSpec, h]
    | some v =>
        by_cases hv : v = Json.str "0001-01-01T00:00:00Z" <;>
          simp [endedLinesSpec, h, hv]
  · intro s hs hne
    simp [endedLinesSpec, hs, hne, pyStr]

/-- Witness for C4: a normal `endsAt` prints verbatim, the sentinel is
suppressed. -/
theorem C4_ended_line_sentinel_witness :
    formatTiming (Json.obj [("endsAt", Json.str "2024-05-01T10:00:00Z")]) =
      .ok ["   ⏹️  Ended: 2024-05-01T10:00:00Z"]
    ∧ endedLinesSpec [("endsAt", Json.str "0001-01-01T00:00:00Z")] = [] := by
  have h1 := C4_ended_line_sentinel [("endsAt", Json.str "2024-05-01T10:00:00Z")]
  have h2 := C4_ended_line_sentinel [("endsAt", Json.str "0001-01-01T00:00:00Z")]
  exact ⟨h1.1.trans (by rfl), h2.2.1.mpr (Or.inr rfl)⟩

/-- C5: the per-alert label listing prints exactly the pairs whose key is
not one of `alertname`, `severity`, `category`, `service`, in the
mapping's iteration order. -/
theorem C5_label_exclusions (entries : List (String × Json)) :
    formatLabels (Json.obj entries) = .ok (labelLinesT entries)
    ∧ (labelLinesT entries).tail = entries.filterMap specLabelRender
    ∧ excludedLabelKeys = ["alertname", "severity", "category", "service"] := by
  have hfun : (fun p : String × Json => if p.1 ∈ excludedLabelKeys then none
      else some ("      " ++ p.1 ++ ": " ++ pyStr p.2)) = specLabelRender := by
    funext p
    simp only [excludedLabelKeys, specLabelRender, List.mem_cons, List.not_mem_nil, or_false]
  refine ⟨formatLabels_obj entries, ?_, rfl⟩
  cases he : entries.isEmpty with
  | true =>
      have h0 : entries = [] := by
        cases entries with
        | nil => rfl
        | cons a rest => simp at he
      subst h0
      rfl
  | false =>
      rw [labelLinesT, if_neg (by simp [he]), List.tail_cons, hfun]

/-- C6: a `description` annotation value is split on newlines, blank lines
are dropped, and each remaining line is printed trimmed and indented; the
value `"line one\n\nline two"` yields exactly the two indented lines. -/
theorem C6_description_split (s : String) :
    annotationRender "description" (Json.str s) =
      .ok ("      Description:" :: specDescription s)
    ∧ annotationRender "description" (Json.str "line one\n\nline two") =
      .ok ["      Description:", "        line one", "        line two"] := by
  constructor
  · have h : annotationRender "description" (Json.str s) =
        .ok ("      Description:" :: (pySplitNl s).filterMap
          (fun line => if (pyStrip line).isEmpty then none
           else some ("        " ++ pyStrip line))) := rfl
    rw [h, filterMap_if_eq_filter_map, specDescription]
  · decide

theorem countP_key_le_one (annots : List (String × Json)) (k : String)
    (hnd : (annots.map Prod.fst).Nodup) :
    annots.countP (fun p => p.1 == k) ≤ 1 := by
  induction annots with
  | nil => simp
  | cons p rest ih =>
      rw [List.map_cons, List.nodup_cons] at hnd
      rw [List.countP_cons]
      by_cases hk : p.1 = k
      · have hzero : rest.countP (fun q => q.1 == k) = 0 := by
          apply List.countP_eq_zero.mpr
          intro q hq
          simp only [beq_iff_eq]
          intro hqk
          have hm : q.1 ∈ rest.map Prod.fst := List.mem_map_of_mem Prod.fst hq
          rw [hqk, ← hk] at hm
          exact hnd.1 hm
        simp [hzero, hk]
      · simp only [beq_iff_eq, hk, if_false]
        simpa using ih hnd.2

/-- C1 counterexample: with the annotations mapping in insertion order
description-then-summary, the formatter prints the Description block
before the Summary line — iteration order, not the fixed
summary-description-runbook-dashboard order the claim requires. -/
theorem C1_counterexample :
    formatAnnotations (Json.obj [("description", Json.str "d"), ("summary", Json.str "s")]) =
      .ok ["   📝 Details:", "      Description:", "        d", "      Summary: s"]
    ∧ ["   📝 Details:", "      Description:", "        d", "      Summary: s"].indexOf
        "      Description:" <
      ["   📝 Details:", "      Description:", "        d", "      Summary: s"].indexOf
        "      Summary: s" :=
  ⟨by decide, by decide⟩

/-- C1 (amended): the recognized annotations are printed in the mapping's
iteration (insertion) order — not in a fixed priority order — each
rendered by its key's fixed format; keys outside the recognized four are
never printed; and since a decoded mapping has unique keys, each
recognized key occurs (hence prints) at most once. -/
theorem C1_amended_iteration_order (annots : List (String × Json))
    (hwf : wfAnnotationsVal (Json.obj annots) = true)
    (hnd : (annots.map Prod.fst).Nodup) :
    formatAnnotations (Json.obj annots) =
      .ok (if annots.isEmpty then [] else
        "   📝 Details:" :: (annots.map (fun p => annotationRenderT p.1 p.2)).flatten)
    ∧ (annots.filter (fun p => decide (p.1 ∉ recognizedAnnotationKeys))).all
        (fun p => (annotationRenderT p.1 p.2).isEmpty)
    ∧ annots.countP (fun p => p.1 == "summary") ≤ 1
    ∧ annots.countP (fun p => p.1 == "description") ≤ 1
    ∧ annots.countP (fun p => p.1 == "runbook_url") ≤ 1
    ∧ annots.countP (fun p => p.1 == "dashboard_url") ≤ 1 := by
  refine ⟨(formatAnnotations_obj annots hwf).trans (by rw [annotationLinesT]), ?_,
    countP_key_le_one annots "summary" hnd, countP_key_le_one annots "description" hnd,
    countP_key_le_one annots "runbook_url" hnd, countP_key_le_one annots "dashboard_url" hnd⟩
  apply List.all_eq_true.mpr
  intro p hp
  have hmem : p.1 ∉ recognizedAnnotationKeys :=
    of_decide_eq_true (List.mem_filter.mp hp).2
  simp only [recognizedAnnotationKeys, List.mem_cons, List.not_mem_nil, or_false,
    not_or] at hmem
  obtain ⟨h1, h2, h3, h4⟩ := hmem
  simp [annotationRenderT, h1, h2, h3, h4]

/-- Witness for C1 (amended): a summary plus an unrecognized key. -/
theorem C1_amended_iteration_order_witness :
    formatAnnotations (Json.obj [("summary", Json.str "s"), ("team", Json.str "x")]) =
      .ok ["   📝 Details:", "      Summary: s"]
    ∧ List.countP (fun p => p.1 == "summary")
        [(("summary" : String), Json.str "s"), ("team", Json.str "x")] ≤ 1 := by
  have h := C1_amended_iteration_order [("summary", Json.str "s"), ("team", Json.str "x")]
    (by decide) (by decide)
  exact ⟨h.1.trans (by decide), h.2.2.1⟩

/-- C3 counterexample: a POST body that is not valid UTF-8 raises an
uncaught `UnicodeDecodeError` (the `except` clause names only
`json.JSONDecodeError`), so the handler sends no response at all rather
than the 400 the claim requires; and a body that decodes to the bare
number 5 makes `handle_alert` raise, so despite the successful decode no
200 response is sent. -/
theorem C3_counterexample :
    (doPOST "2024-01-01 00:00:00" DecodeOutcome.badUtf8).status ≠ some 400
    ∧ (doPOST "2024-01-01 00:00:00" (DecodeOutcome.ok (Json.num 5))).status ≠ some 200 :=
  ⟨by decide, by decide⟩

/-- C3 (amended): a valid-UTF-8 but malformed-JSON body is logged with the
parse error and answered HTTP 400, empty body, without invoking the
formatter; a body that is not valid UTF-8 propagates its exception and no
response is sent; on every successful decode the formatter is invoked
unconditionally, and then: when it completes without raising the handler
responds HTTP 200 with Content-Type `application/json` and exactly the
success JSON body, and when it raises the exception propagates and no
response is sent. -/
theorem C3_amended_decode_paths (ts msg : String) (j : Json) :
    doPOST ts DecodeOutcome.badUtf8 = ⟨none, none, none, none, false⟩
    ∧ doPOST ts (DecodeOutcome.badJson msg) =
        ⟨some 400, none, none, some ("❌ Error parsing JSON: " ++ msg), false⟩
    ∧ (doPOST ts (DecodeOutcome.ok j)).formatterCalled = true
    ∧ (∀ out, handleAlert ts j = Except.ok out →
        doPOST ts (DecodeOutcome.ok j) =
          ⟨some 200, some "application/json", some "\x7b\"status\": \"success\"\x7d",
           none, true⟩)
    ∧ (∀ e, handleAlert ts j = Except.error e →
        doPOST ts (DecodeOutcome.ok j) = ⟨none, none, none, none, true⟩) := by
  refine ⟨rfl, rfl, ?_, ?_, ?_⟩
  · cases h : handleAlert ts j <;> simp [doPOST, h]
  · intro out hok
    simp only [doPOST, hok]
  · intro e herr
    simp only [doPOST, herr]

/-- Witness for C3 (amended): a malformed body, the empty object (formatter
succeeds, 200 sent), and the bare number 5 (formatter raises, invoked but
no response). -/
theorem C3_amended_decode_paths_witness :
    doPOST "2024-01-01 00:00:00" (DecodeOutcome.badJson "m") =
      ⟨some 400, none, none, some "❌ Error parsing JSON: m", false⟩
    ∧ (doPOST "2024-01-01 00:00:00" (DecodeOutcome.ok (Json.num 5))).formatterCalled = true
    ∧ doPOST "2024-01-01 00:00:00" (DecodeOutcome.ok (Json.obj [])) =
      ⟨some 200, some "application/json", some "\x7b\"status\": \"success\"\x7d",
       none, true⟩
    ∧ doPOST "2024-01-01 00:00:00" (DecodeOutcome.ok (Json.num 5)) =
      ⟨none, none, none, none, true⟩ := by
  have h0 := C3_amended_decode_paths "2024-01-01 00:00:00" "m" (Json.obj [])
  have h5 := C3_amended_decode_paths "2024-01-01 00:00:00" "m" (Json.num 5)
  exact ⟨h0.2.1.trans (by decide), h5.2.2.1, h0.2.2.2.1 _ rfl, h5.2.2.2.2 _ rfl⟩

/-- C10: the report is independent of the top-level `status` and
`commonAnnotations` fields (both are read into locals that are never
used): any two top-level objects agreeing on the three fields the
formatter uses — `groupLabels`, `commonLabels`, `alerts` — and in
particular any two objects differing only in the values of `status` and
`commonAnnotations`, produce identical formatter results. -/
theorem C10_unused_fields_independence (ts : String)
    (l1 l2 : List (String × Json))
    (hg : lookupKey l1 "groupLabels" = lookupKey l2 "groupLabels")
    (hc : lookupKey l1 "commonLabels" = lookupKey l2 "commonLabels")
    (ha : lookupKey l1 "alerts" = lookupKey l2 "alerts") :
    handleAlert ts (Json.obj l1) = handleAlert ts (Json.obj l2) := by
  simp only [handleAlert, get_obj, ok_bind, hg, hc, ha]

/-- Witness for C10: two payloads with different `status` and
`commonAnnotations` values give the same report. -/
theorem C10_unused_fields_independence_witness :
    handleAlert "2024-01-01 00:00:00"
      (Json.obj [("status", Json.str "firing"),
        ("commonAnnotations", Json.obj [("note", Json.str "x")]),
        ("alerts", Json.arr [])]) =
    handleAlert "2024-01-01 00:00:00"
      (Json.obj [("status", Json.str "resolved"), ("alerts", Json.arr [])]) :=
  C10_unused_fields_independence "2024-01-01 00:00:00" _ _ (by decide) (by decide) (by decide)

/-- Witness for C7: a payload whose `alerts` key is absent. -/
theorem C7_count_and_numbering_witness :
    wfTop (Json.obj [("status", Json.str "firing")]) = true
    ∧ "📊 Total alerts in group: 0" ∈
        reportLinesT "2024-01-01 00:00:00" [("status", Json.str "firing")]
    ∧ alertSectionsT 1
        (arrElems ((lookupKey [("status", Json.str "firing")] "alerts").getD (Json.arr []))) =
        [] :=
  ⟨by decide,
   ((C7_count_and_numbering "2024-01-01 00:00:00" [("status", Json.str "firing")]
       (by decide)).2.2.2.2 rfl).2.1,
   ((C7_count_and_numbering "2024-01-01 00:00:00" [("status", Json.str "firing")]
       (by decide)).2.2.2.2 rfl).2.2⟩

end AlertWebhook
